import Mathlib

/-!
Shallow embedding of the satirical CO2 calculator (`app.py`) and proofs of the
specification claims about it.

Conventions of the embedding:
* Python floats are modelled as exact numbers: `ℚ` where the code only
  compares and scales (formatters, intensity bands, tip conditions), and `ℝ`
  where `math.sqrt` appears (the emission estimate).
* `hashlib.sha256` is implemented in full (FIPS 180-4) over byte lists.
* `datetime.utcnow().strftime("%Y%m%d%H%M")` is made an explicit `minute`
  argument: the embedding of `deterministic_seed` takes the time bucket as a
  parameter, which is the state the Python code reads from the clock.
* `random.Random(seed)` is modelled as a deterministic stream of naturals
  determined by the seed together with a counter of consumed draws; `r.choice`
  consumes one draw.  Only determinism, the seeding, and the draw order of
  this generator are used by any theorem; the concrete drawn values stand in
  for the Mersenne Twister's.
-/

/-! ## 32-bit word helpers (all values are `Nat`, reduced mod 2^32) -/

/-- Reduce a natural number to a 32-bit word. -/
def w32 (x : Nat) : Nat := x % 4294967296

/-- Addition mod 2^32. -/
def add32 (a b : Nat) : Nat := (a + b) % 4294967296

/-- Right rotation of a 32-bit word by `n` bits. -/
def rotr32 (n x : Nat) : Nat := w32 (x / 2 ^ n + x % 2 ^ n * 2 ^ (32 - n))

/-- Logical right shift of a 32-bit word by `n` bits. -/
def shr32 (n x : Nat) : Nat := x / 2 ^ n

/-- Bitwise complement of a 32-bit word. -/
def not32 (x : Nat) : Nat := 4294967295 - w32 x

/-! ## SHA-256 (FIPS 180-4), used by `deterministic_seed` via `hashlib` -/

/-- SHA-256 big sigma-0. -/
def bsig0 (x : Nat) : Nat := rotr32 2 x ^^^ rotr32 13 x ^^^ rotr32 22 x

/-- SHA-256 big sigma-1. -/
def bsig1 (x : Nat) : Nat := rotr32 6 x ^^^ rotr32 11 x ^^^ rotr32 25 x

/-- SHA-256 small sigma-0. -/
def ssig0 (x : Nat) : Nat := rotr32 7 x ^^^ rotr32 18 x ^^^ shr32 3 x

/-- SHA-256 small sigma-1. -/
def ssig1 (x : Nat) : Nat := rotr32 17 x ^^^ rotr32 19 x ^^^ shr32 10 x

/-- SHA-256 round constants. -/
def sha256K : List Nat :=
  [1116352408, 1899447441, 3049323471, 3921009573, 961987163,
   1508970993, 2453635748, 2870763221, 3624381080, 310598401,
   607225278, 1426881987, 1925078388, 2162078206, 2614888103,
   3248222580, 3835390401, 4022224774, 264347078, 604807628,
   770255983, 1249150122, 1555081692, 1996064986, 2554220882,
   2821834349, 2952996808, 3210313671, 3336571891, 3584528711,
   113926993, 338241895, 666307205, 773529912, 1294757372,
   1396182291, 1695183700, 1986661051, 2177026350, 2456956037,
   2730485921, 2820302411, 3259730800, 3345764771, 3516065817,
   3600352804, 4094571909, 275423344, 430227734, 506948616,
   659060556, 883997877, 958139571, 1322822218, 1537002063,
   1747873779, 1955562222, 2024104815, 2227730452, 2361852424,
   2428436474, 2756734187, 3204031479, 3329325298]

/-- SHA-256 initial hash state. -/
def sha256H0 : List Nat :=
  [1779033703, 3144134277, 1013904242, 2773480762,
   1359893119, 2600822924, 528734635, 1541459225]

/-- Big-endian byte rendering of `n` on exactly `k` bytes (low bytes kept). -/
def beBytes : Nat → Nat → List Nat
  | 0, _ => []
  | k + 1, n => beBytes k (n / 256) ++ [n % 256]

/-- SHA-256 message padding: append `0x80`, zero bytes to 56 mod 64, then the
bit length on 8 big-endian bytes. -/
def sha256Pad (msg : List Nat) : List Nat :=
  let L := msg.length
  let zeros := (119 - L % 64) % 64
  msg ++ [128] ++ List.replicate zeros 0 ++ beBytes 8 (8 * L)

/-- Group a byte list into big-endian 32-bit words (4 bytes each). -/
def toWords : List Nat → List Nat
  | b0 :: b1 :: b2 :: b3 :: rest => (((b0 * 256 + b1) * 256 + b2) * 256 + b3) :: toWords rest
  | _ => []

/-- Split a word list into blocks of 16 words. -/
def chunk16 : List Nat → List (List Nat)
  | [] => []
  | w :: ws => (w :: ws.take 15) :: chunk16 (ws.drop 15)
termination_by l => l.length
decreasing_by simp; omega

/-- Extend a 16-word block by `n` further schedule words. -/
def sha256Extend (w : List Nat) : Nat → List Nat
  | 0 => w
  | n + 1 =>
    let prev := sha256Extend w n
    let L := prev.length
    prev ++ [add32 (add32 (ssig1 (prev.getD (L - 2) 0)) (prev.getD (L - 7) 0))
                   (add32 (ssig0 (prev.getD (L - 15) 0)) (prev.getD (L - 16) 0))]

/-- One SHA-256 compression round on the 8-word working state. -/
def sha256Round (st : List Nat) (kw : Nat × Nat) : List Nat :=
  match st with
  | [a, b, c, d, e, f, g, h] =>
    let t1 := (h + bsig1 e + ((e &&& f) ^^^ (not32 e &&& g)) + kw.1 + kw.2) % 4294967296
    let t2 := (bsig0 a + ((a &&& b) ^^^ (a &&& c) ^^^ (b &&& c))) % 4294967296
    [(t1 + t2) % 4294967296, a, b, c, (d + t1) % 4294967296, e, f, g]
  | other => other

/-- Process one 16-word block, updating the 8-word hash state. -/
def sha256Block (h : List Nat) (block : List Nat) : List Nat :=
  let w := sha256Extend block 48
  let st := (List.zip sha256K w).foldl sha256Round h
  List.zipWith add32 h st

/-- SHA-256 digest of a byte list, as the list of 8 hash words. -/
def sha256Words (msg : List Nat) : List Nat :=
  (chunk16 (toWords (sha256Pad msg))).foldl sha256Block sha256H0

/-- SHA-256 digest interpreted as one big integer, exactly as Python's
`int(h.hexdigest(), 16)` reads the big-endian digest. -/
def sha256Int (msg : List Nat) : Nat :=
  (sha256Words msg).foldl (fun acc w => acc * 4294967296 + w) 0

/-! ## UTF-8 encoding (Python's `str.encode("utf-8")`) -/

/-- UTF-8 encoding of one character as a byte list. -/
def charUtf8 (c : Char) : List Nat :=
  let n := c.toNat
  if n < 128 then [n]
  else if n < 2048 then [192 + n / 64, 128 + n % 64]
  else if n < 65536 then [224 + n / 4096, 128 + n / 64 % 64, 128 + n % 64]
  else [240 + n / 262144, 128 + n / 4096 % 64, 128 + n / 64 % 64, 128 + n % 64]

/-- UTF-8 encoding of a string as a byte list. -/
def strBytes (s : String) : List Nat :=
  s.data.foldr (fun c acc => charUtf8 c ++ acc) []

/-! ## `deterministic_seed` (app.py lines 118-123)

The Python function reads the wall clock for its minute bucket; the embedding
takes that bucket as the explicit argument `minute`.  The `parts` are the
already-stringified field values (`map(str, parts)` in the source). -/

/-- Embedding of `deterministic_seed`: join the stringified parts with `"|"`,
append the minute bucket, SHA-256 the UTF-8 bytes, and reduce the digest
integer mod 2^32. -/
def deterministic_seed (parts : List String) (minute : String) : Nat :=
  let base := String.intercalate "|" parts
  sha256Int (strBytes (base ++ minute)) % 2 ^ 32

/-! ## Emission factor and distance tables (app.py lines 34-69)

Python dict literals become association lists; `dict.get(key, default)` becomes
`(List.lookup key table).getD default`. -/

/-- Embedding of `EMISSION_FACTORS` (kg CO2e per USD, by category). -/
def EMISSION_FACTORS : List (String × ℚ) :=
  [("Electronics (phone, laptop)", 0.30),
   ("Clothing (fast fashion)", 0.18),
   ("Clothing (sustainable)", 0.10),
   ("Groceries / Food (average)", 0.22),
   ("Groceries / Plant-based", 0.15),
   ("Groceries / Animal-based", 0.35),
   ("Flight / Travel booking (ticket)", 0.55),
   ("Furniture / Home goods", 0.28),
   ("Cosmetics / Personal care", 0.12),
   ("Packaged goods", 0.14),
   ("Books / Media", 0.09),
   ("Sporting goods / Outdoor", 0.20),
   ("Services / Subscriptions", 0.04),
   ("Misc / Other", 0.16)]

/-- Embedding of `DISTANCE_MULTIPLIERS`. -/
def DISTANCE_MULTIPLIERS : List (String × ℚ) :=
  [("Local (same city)", 1.00),
   ("National (within country)", 1.10),
   ("International (overseas)", 1.40)]

/-- Embedding of the constant `KG_TO_TONNES = 1/1000`. -/
def KG_TO_TONNES : ℚ := 1 / 1000

/-! ## Display formatters (app.py lines 126-134)

Python's fixed-point `f"{x:.Nf}"` formatting rounds half-to-even at the `N`-th
decimal and always prints `N` decimals (no point when `N = 0`). -/

/-- Round a rational to the nearest integer, ties to even (Python float
formatting's rounding mode). -/
def roundHalfEven (q : ℚ) : ℤ :=
  let f := ⌊q⌋
  let r := q - f
  if r < 1 / 2 then f else if 1 / 2 < r then f + 1 else if f % 2 = 0 then f else f + 1

/-- Render a natural number with `d` fixed decimals (its last `d` digits). -/
def fmtNat (m : Nat) (d : Nat) : String :=
  let intPart := m / 10 ^ d
  let frac := m % 10 ^ d
  let s := Nat.repr frac
  let fracStr := if d = 0 then "" else "." ++ String.mk (List.replicate (d - s.length) '0') ++ s
  Nat.repr intPart ++ fracStr

/-- Embedding of Python's `f"{q:.df}"` fixed-point formatting. -/
def formatFixed (q : ℚ) (d : Nat) : String :=
  let n := roundHalfEven (q * (10 : ℚ) ^ d)
  (if n < 0 then "-" else "") ++ fmtNat n.natAbs d

/-- Embedding of `format_kg`: grams with 0 decimals below 1 kg, otherwise
kilograms with 2 decimals. -/
def format_kg (kg : ℚ) : String :=
  if kg < 1 then formatFixed (kg * 1000) 0 ++ " g CO2e"
  else formatFixed kg 2 ++ " kg CO2e"

/-- Embedding of `format_tonnes`: tonnes with 3 decimals. -/
def format_tonnes (kg : ℚ) : String :=
  let t := kg * KG_TO_TONNES
  formatFixed t 3 ++ " t CO2e"

/-! ## `estimate_emission` (app.py lines 139-163)

The weight parameter is `float | None` in Python; its truthiness test
`weight_kg and weight_kg > 0` is `False` for `None` and for `0.0`, otherwise
the comparison `weight_kg > 0`.  `math.sqrt` forces this function into `ℝ`. -/

/-- Embedding of `estimate_emission`.  Mirrors the source line by line:
factor lookup with `Misc / Other` fallback, base product, distance multiplier
with default `1.0`, shipping-speed penalty, additive `sqrt` weight term, and
the final clamp `max(result, 0.0)`. -/
noncomputable def estimate_emission (category : String) (price_usd : ℝ) (quantity : ℤ)
    (distance_level : String) (weight_kg : Option ℝ) (shipping_speed : String) : ℝ :=
  let factor : ℚ := (EMISSION_FACTORS.lookup category).getD
    ((EMISSION_FACTORS.lookup "Misc / Other").getD 0)
  let base : ℝ := price_usd * (factor : ℝ) * (quantity : ℝ)
  let multiplier : ℚ := (DISTANCE_MULTIPLIERS.lookup distance_level).getD 1
  let result : ℝ := base * (multiplier : ℝ)
  let result : ℝ :=
    if shipping_speed = "Express / Overnight" then result * 1.15
    else if shipping_speed = "Two-day" then result * 1.07
    else result
  let result : ℝ :=
    match weight_kg with
    | some w => if w ≠ 0 ∧ 0 < w then result + Real.sqrt w * 1.5 else result
    | none => result
  max result 0

/-! ### Closed-form helpers (the factors named by the specification) -/

/-- Category factor with the `Misc / Other` fallback, as `estimate_emission`
resolves it. -/
def factorOf (category : String) : ℚ :=
  (EMISSION_FACTORS.lookup category).getD ((EMISSION_FACTORS.lookup "Misc / Other").getD 0)

/-- Distance multiplier with default `1.0`, as `estimate_emission` resolves it. -/
def distMultOf (distance_level : String) : ℚ :=
  (DISTANCE_MULTIPLIERS.lookup distance_level).getD 1

/-- Shipping-speed multiplier: 1.15 for Express, 1.07 for Two-day, 1 otherwise. -/
def speedMultOf (shipping_speed : String) : ℚ :=
  if shipping_speed = "Express / Overnight" then 1.15
  else if shipping_speed = "Two-day" then 1.07
  else 1

/-- Additive weight term: `sqrt(w) * 1.5` for a present positive weight,
`0` otherwise. -/
noncomputable def weightTermOf (weight_kg : Option ℝ) : ℝ :=
  match weight_kg with
  | some w => if 0 < w then Real.sqrt w * 1.5 else 0
  | none => 0

/-! ## Message pools (app.py lines 73-113) -/

/-- Embedding of `FEEDBACK_TEMPLATES`. -/
def FEEDBACK_TEMPLATES : List String :=
  ["Oh look — you bought {item}. The planet is so thrilled.",
   "Congrats on acquiring {item}! Earth will remember... briefly.",
   "Nice choice: {item}. Your carbon footprint applauds you silently.",
   "You ordered {item}. If guilt were measurable, it\x27d be in tonnes.",
   "One small purchase for you, one medium sigh from the atmosphere.",
   "You just added {item} to cart. The clouds sent a thank-you card (unsigned)."]

/-- Embedding of `TIPS_TEMPLATES`: a category condition (`none` means
unconditional) paired with the templated text. -/
def TIPS_TEMPLATES : List (Option (List String) × String) :=
  [(none, "Try second-hand or refurbished for {category}. Vintage has personality and smaller emissions."),
   (none, "Repair before replace — local repair cafes do miracles for {category}."),
   (some ["Flight / Travel booking (ticket)"], "If it\x27s a flight: consider trains, or bundle trips and fly less often to cut emissions."),
   (some ["Electronics (phone, laptop)"], "For electronics: keep it 3–5 years longer, and recycle responsibly when done."),
   (some ["Clothing (fast fashion)", "Clothing (sustainable)"], "Choose natural fibers or properly certified sustainable brands for long-term wear."),
   (some ["Groceries / Animal-based"], "Swap one animal-based meal a week for plant-based — small change, real impact."),
   (some ["Furniture / Home goods"], "For furniture, buy solid and locally-made — heavy items travel the world already."),
   (some ["Packaged goods"], "Avoid single-use packaging: bring your own container or buy in bulk."),
   (none, "Turn off fast shipping — slower delivery reduces freight emissions."),
   (none, "If you\x27re feeling guilty, opt for high-quality and fewer items; it outlives the trend cycles."),
   (none, "Check the brand\x27s transparency reports — transparency often means better practices.")]

/-- Embedding of `PUNCHLINES`. -/
def PUNCHLINES : List String :=
  ["(Future you owes present you an explanation.)",
   "(Your carbon spreadsheet has been updated.)",
   "(Mood: fashionable, atmosphere: not so much.)",
   "(This tip brought to you with minimal irony.)",
   "(Do one small thing — then another tomorrow.)"]

/-- Embedding of `SARCASTIC_SUFFIXES`. -/
def SARCASTIC_SUFFIXES : List String :=
  ["(Your carbon ledger has been updated.)",
   "(No refunds accepted from atmosphere.)",
   "(Sustainability: now available as an optional extra.)",
   "(Ask again in 5–10 business years.)",
   "(This message brought to you by fossil fuels.)"]

/-! ## Seeded generator model (CPython's `random.Random`)

The Mersenne Twister itself is not reproduced; it is modelled as a fixed
deterministic stream of naturals indexed by (seed, number of draws consumed),
which is all any claim about the selectors uses: the generator is seeded
explicitly, is local to the call, and each `r.choice` consumes exactly one
draw. -/

/-- Generator state: the seed it was constructed from and the number of draws
consumed so far. -/
structure PyRandom where
  seed : Nat
  idx : Nat

/-- The modelled draw stream: a fixed mixing function of seed and draw index. -/
def randStream (seed i : Nat) : Nat :=
  (seed * 6364136223846793005 + i * 1442695040888963407 + 1013904223) % 18446744073709551616

/-- Model of constructing `random.Random(seed)`. -/
def pyRandomInit (seed : Nat) : PyRandom := ⟨seed, 0⟩

/-- Model of `r.choice(l)`: index the list by the next draw and advance the
generator.  All pools in the program are non-empty, so the `""` default of
`getD` is never produced. -/
def PyRandom.choice (r : PyRandom) (l : List String) : String × PyRandom :=
  (l.getD (randStream r.seed r.idx % l.length) "", ⟨r.seed, r.idx + 1⟩)

/-- Element selected by draw number `i` of the generator seeded with `seed`,
from pool `l` (used to state draw-order facts). -/
def pickAt (seed i : Nat) (l : List String) : String :=
  l.getD (randStream seed i % l.length) ""

/-! ## Placeholder substitution (Python's `str.format` / `str.replace`) -/

/-- Bool test that a character list starts with a pattern. -/
def listStartsWith : List Char → List Char → Bool
  | _, [] => true
  | [], _ :: _ => false
  | a :: as, b :: bs => a == b && listStartsWith as bs

/-- Fuelled replacement of every occurrence of `pat` by `rep`. -/
def substFuel (pat rep : List Char) : Nat → List Char → List Char
  | 0, l => l
  | _ + 1, [] => []
  | fuel + 1, c :: cs =>
    if listStartsWith (c :: cs) pat then
      rep ++ substFuel pat rep fuel (List.drop (pat.length - 1) cs)
    else
      c :: substFuel pat rep fuel cs

/-- Replace every occurrence of `pat` in `s` by `rep` (the effect of
`tmpl.format(item=...)` and `tip.replace('{category}', ...)` on the program's
templates). -/
def subst (pat rep s : String) : String :=
  String.mk (substFuel pat.data rep.data s.data.length s.data)

/-! ## `choose_feedback` (app.py lines 168-191) -/

/-- Intensity classification of `kg_co2` (app.py lines 174-181). -/
def intensityOf (kg : ℚ) : String :=
  if kg < 0.5 then "mild"
  else if kg < 5 then "noticeable"
  else if kg < 50 then "strong"
  else "epic"

/-- Embedding of the `intensity_map` dict inside `choose_feedback`; only the
four band names occur as keys. -/
def intensity_map (s : String) : List String :=
  if s = "mild" then
    ["Barely a ripple.", "You could buy this daily and still be forgettable."]
  else if s = "noticeable" then
    ["A proper puff of CO2.", "You just made a small but measurable dent."]
  else if s = "strong" then
    ["That\x27s the kind of purchase museums will catalog.", "Atmosphere: concerned."]
  else if s = "epic" then
    ["Monumental. The clouds sent flowers.", "You unlocked a carbon achievement: \x27The Tower\x27."]
  else []

/-- Embedding of `choose_feedback`: template draw, suffix draw, intensity
classification, intensity-line draw, then concatenation.  The `category`
argument is accepted and unused exactly as in the source. -/
def choose_feedback (item_name category : String) (kg_co2 : ℚ) (seed_val : Nat) : String :=
  let r := pyRandomInit seed_val
  let tr := r.choice FEEDBACK_TEMPLATES
  let sr := tr.2.choice SARCASTIC_SUFFIXES
  let intensity := intensityOf kg_co2
  let lr := sr.2.choice (intensity_map intensity)
  subst "{item}" item_name tr.1 ++ " " ++ lr.1 ++ " " ++ sr.1

/-! ## `choose_tip` (app.py lines 194-225) -/

/-- Python truthiness test `w and w > t` for an optional number: `None` and
`0` are falsy, otherwise the comparison runs. -/
def pyTruthyAndGt (w : Option ℚ) (t : ℚ) : Bool :=
  match w with
  | none => false
  | some x => decide (x ≠ 0) && decide (t < x)

/-- Extra clauses built by `choose_tip` (app.py lines 212-218), in source
order: express-shipping caution, heavy-item suggestion, local-equivalent
suggestion. -/
def tipExtras (distance : String) (weight_kg : Option ℚ) (shipping_speed : String) : List String :=
  (if shipping_speed = "Express / Overnight" then
    ["Skip express shipping next time — it\x27s pricey for the planet."] else []) ++
  (if pyTruthyAndGt weight_kg 10 then
    ["For heavy items, prefer consolidated shipping or local pickup."] else []) ++
  (if distance = "International (overseas)" then
    ["Check if a local equivalent exists to avoid long-haul transport."] else [])

/-- Candidate tip texts for a category (app.py lines 197-204): the templates
whose condition is `None` or contains the category; if that filter selects
nothing, the full pool as fallback. -/
def tipCandidates (category : String) : List String :=
  let filtered := (TIPS_TEMPLATES.filter fun ct =>
    match ct.1 with
    | none => true
    | some cats => cats.contains category).map (fun ct => ct.2)
  if filtered.isEmpty then TIPS_TEMPLATES.map (fun ct => ct.2) else filtered

/-- Embedding of `choose_tip`: generator seeded with `seed + 7`, category
filter with full-pool fallback, template draw, placeholder substitution,
extras, punchline draw, and the `extras[:2]` append. -/
def choose_tip (category distance : String) (weight_kg : Option ℚ) (shipping_speed : String)
    (seed_val : Nat) : String :=
  let r := pyRandomInit (seed_val + 7)
  let tr := r.choice (tipCandidates category)
  let tip := subst "{category}" category tr.1
  let extras := tipExtras distance weight_kg shipping_speed
  let pr := tr.2.choice PUNCHLINES
  let tip := if extras.isEmpty then tip else tip ++ " " ++ String.intercalate " " (extras.take 2)
  tip ++ " " ++ pr.1

/-- Variant of `choose_feedback` drawing in the order the specification
asserts (template, then intensity line, then suffix); stated only to be
compared against the source's draw order. -/
def choose_feedback_specOrder (item_name category : String) (kg_co2 : ℚ) (seed_val : Nat) : String :=
  let r := pyRandomInit seed_val
  let tr := r.choice FEEDBACK_TEMPLATES
  let lr := tr.2.choice (intensity_map (intensityOf kg_co2))
  let sr := lr.2.choice SARCASTIC_SUFFIXES
  subst "{item}" item_name tr.1 ++ " " ++ lr.1 ++ " " ++ sr.1

/-- Definition following the specification's words for claim C8 (section 7 of
the spec): a boundary validation rejecting negative price or zero quantity
with a labeled error before computing.  Stated only to be compared with
`estimate_emission`, which performs no such validation. -/
noncomputable def estimate_spec_validating (category : String) (price_usd : ℝ) (quantity : ℤ)
    (distance_level : String) (weight_kg : Option ℝ) (shipping_speed : String) :
    Except String ℝ :=
  if price_usd < 0 ∨ quantity = 0 then Except.error "validation error"
  else Except.ok
    (estimate_emission category price_usd quantity distance_level weight_kg shipping_speed)

/-! ## Helper lemmas about the estimator -/

/-- Closed form of `estimate_emission`: the price-factor-quantity product with
both multipliers, plus the weight term, clamped at zero. -/
theorem estimate_emission_closed_form (category : String) (price_usd : ℝ) (quantity : ℤ)
    (distance_level : String) (weight_kg : Option ℝ) (shipping_speed : String) :
    estimate_emission category price_usd quantity distance_level weight_kg shipping_speed =
      max 0 (price_usd * (factorOf category : ℝ) * (quantity : ℝ) *
        (distMultOf distance_level : ℝ) * (speedMultOf shipping_speed : ℝ) +
        weightTermOf weight_kg) := by
  cases weight_kg with
  | none =>
    simp only [estimate_emission, factorOf, distMultOf, speedMultOf, weightTermOf]
    rw [max_comm]
    congr 1
    split_ifs <;> push_cast <;> ring
  | some w =>
    simp only [estimate_emission, factorOf, distMultOf, speedMultOf, weightTermOf]
    rw [max_comm]
    congr 1
    by_cases hw : 0 < w
    · have hcond : w ≠ 0 ∧ 0 < w := ⟨hw.ne', hw⟩
      rw [if_pos hcond, if_pos hw]
      split_ifs <;> push_cast <;> ring
    · have hcond : ¬(w ≠ 0 ∧ 0 < w) := fun h => hw h.2
      rw [if_neg hcond, if_neg hw]
      split_ifs <;> push_cast <;> ring

/-! ### Positivity of the table values -/

/-- A successful lookup in an association list of positive values is positive. -/
theorem lookup_pos_of_forall {l : List (String × ℚ)} (hl : ∀ p ∈ l, 0 < p.2)
    {c : String} {v : ℚ} (h : l.lookup c = some v) : 0 < v := by
  induction l with
  | nil => simp [List.lookup] at h
  | cons p l ih =>
    obtain ⟨k, b⟩ := p
    rw [List.lookup] at h
    split at h
    · cases h
      exact hl _ (List.mem_cons_self _ _)
    · exact ih (fun q hq => hl q (List.mem_cons_of_mem _ hq)) h

/-- Every emission factor in the table is positive. -/
theorem EMISSION_FACTORS_pos : ∀ p ∈ EMISSION_FACTORS, 0 < p.2 := by
  intro p hp
  fin_cases hp <;> norm_num

/-- Every distance multiplier in the table is positive. -/
theorem DISTANCE_MULTIPLIERS_pos : ∀ p ∈ DISTANCE_MULTIPLIERS, 0 < p.2 := by
  intro p hp
  fin_cases hp <;> norm_num

/-- The fallback lookup that `estimate_emission` performs. -/
theorem lookup_misc_eq : List.lookup "Misc / Other" EMISSION_FACTORS = some 0.16 := by rfl

/-- The resolved category factor is always positive (the fallback included). -/
theorem factorOf_pos (c : String) : 0 < factorOf c := by
  unfold factorOf
  cases h : List.lookup c EMISSION_FACTORS with
  | none =>
    rw [Option.getD_none, lookup_misc_eq, Option.getD_some]
    norm_num
  | some v =>
    rw [Option.getD_some]
    exact lookup_pos_of_forall EMISSION_FACTORS_pos h

/-- The resolved distance multiplier is always positive (the default included). -/
theorem distMultOf_pos (d : String) : 0 < distMultOf d := by
  unfold distMultOf
  cases h : List.lookup d DISTANCE_MULTIPLIERS with
  | none => rw [Option.getD_none]; norm_num
  | some v =>
    rw [Option.getD_some]
    exact lookup_pos_of_forall DISTANCE_MULTIPLIERS_pos h

/-- The shipping-speed multiplier is always positive. -/
theorem speedMultOf_pos (s : String) : 0 < speedMultOf s := by
  unfold speedMultOf
  split_ifs <;> norm_num

/-- The weight term is always non-negative. -/
theorem weightTermOf_nonneg (w : Option ℝ) : 0 ≤ weightTermOf w := by
  cases w with
  | none => exact le_refl 0
  | some x =>
    simp only [weightTermOf]
    split_ifs
    · positivity
    · exact le_refl 0

/-- The first value drawn from a fresh generator is draw number 0. -/
theorem choice_draw0 (s : Nat) (l : List String) :
    ((pyRandomInit s).choice l).1 = pickAt s 0 l := rfl

/-- The second value drawn from a fresh generator is draw number 1. -/
theorem choice_draw1 (s : Nat) (l₀ l : List String) :
    (((pyRandomInit s).choice l₀).2.choice l).1 = pickAt s 1 l := rfl

/-- The third value drawn from a fresh generator is draw number 2. -/
theorem choice_draw2 (s : Nat) (l₀ l₁ l : List String) :
    ((((pyRandomInit s).choice l₀).2.choice l₁).2.choice l).1 = pickAt s 2 l := rfl

/-- Lookup of the Electronics category in the factor table. -/
theorem lookup_electronics_eq :
    List.lookup "Electronics (phone, laptop)" EMISSION_FACTORS = some 0.30 := by rfl

/-- Lookup of the Local distance level in the multiplier table. -/
theorem lookup_local_eq :
    List.lookup "Local (same city)" DISTANCE_MULTIPLIERS = some 1.00 := by rfl

/-! ## Claims -/

/-- C1: for every input, `estimate_emission` returns
`max(0, price * factor * quantity * distanceMultiplier * speedMultiplier + weightTerm)`
with the category factor defaulting to the `Misc / Other` factor, speed
multipliers 1.15 (Express), 1.07 (Two-day), 1.00 (otherwise), and the weight
term `sqrt(weight) * 1.5` for a present positive weight and `0` otherwise; and
at category Electronics, price 100, quantity 1, distance Local, weight absent,
shipping Standard it returns exactly 30 kg. -/
theorem C1_estimate_formula :
    (∀ (category : String) (price_usd : ℝ) (quantity : ℤ) (distance_level : String)
        (weight_kg : Option ℝ) (shipping_speed : String),
      estimate_emission category price_usd quantity distance_level weight_kg shipping_speed =
        max 0 (price_usd * (factorOf category : ℝ) * (quantity : ℝ) *
          (distMultOf distance_level : ℝ) * (speedMultOf shipping_speed : ℝ) +
          weightTermOf weight_kg)) ∧
    estimate_emission "Electronics (phone, laptop)" 100 1 "Local (same city)" none
      "Standard (5–8 days)" = 30 := by
  refine ⟨estimate_emission_closed_form, ?_⟩
  rw [estimate_emission_closed_form]
  have hf : factorOf "Electronics (phone, laptop)" = 0.30 := by
    rw [factorOf, lookup_electronics_eq, Option.getD_some]
  have hd : distMultOf "Local (same city)" = 1.00 := by
    rw [distMultOf, lookup_local_eq, Option.getD_some]
  have hs : speedMultOf "Standard (5–8 days)" = 1 := by
    rw [speedMultOf, if_neg (by decide), if_neg (by decide)]
  have hw : weightTermOf none = 0 := rfl
  rw [hf, hd, hs, hw]
  push_cast
  norm_num

/-- C3: `deterministic_seed` (pipe-joined stringified fields plus the minute
bucket, SHA-256, digest integer mod 2^32) always lands in `[0, 2^32)`, is
total by construction, and two calls with identical field values in the same
time bucket return the identical seed. -/
theorem C3_seed_range_and_reproducible (parts : List String) (minute : String) :
    deterministic_seed parts minute < 2 ^ 32 ∧
    ∀ (parts₂ : List String) (minute₂ : String), parts = parts₂ → minute = minute₂ →
      deterministic_seed parts minute = deterministic_seed parts₂ minute₂ := by
  refine ⟨?_, ?_⟩
  · show sha256Int (strBytes (String.intercalate "|" parts ++ minute)) % 2 ^ 32 < 2 ^ 32
    exact Nat.mod_lt _ (by norm_num)
  · intro parts₂ minute₂ h1 h2
    rw [h1, h2]

/-- Witness for C3 at a concrete field list and time bucket. -/
theorem C3_witness :
    deterministic_seed ["AirPods", "Electronics (phone, laptop)"] "202501011200" < 2 ^ 32 ∧
    deterministic_seed ["AirPods", "Electronics (phone, laptop)"] "202501011200" =
      deterministic_seed ["AirPods", "Electronics (phone, laptop)"] "202501011200" :=
  ⟨(C3_seed_range_and_reproducible ["AirPods", "Electronics (phone, laptop)"] "202501011200").1,
   (C3_seed_range_and_reproducible ["AirPods", "Electronics (phone, laptop)"] "202501011200").2
     _ _ rfl rfl⟩

/-- C5: `choose_feedback` and `choose_tip` are pure functions of their
explicit arguments including the seed: equal arguments give identical
strings, with no shared random state between calls (each call seeds its own
local generator). -/
theorem C5_selectors_pure :
    (∀ (item cat : String) (kg : ℚ) (seed : Nat) (item₂ cat₂ : String) (kg₂ : ℚ) (seed₂ : Nat),
      item = item₂ → cat = cat₂ → kg = kg₂ → seed = seed₂ →
      choose_feedback item cat kg seed = choose_feedback item₂ cat₂ kg₂ seed₂) ∧
    (∀ (cat dist : String) (w : Option ℚ) (speed : String) (seed : Nat)
        (cat₂ dist₂ : String) (w₂ : Option ℚ) (speed₂ : String) (seed₂ : Nat),
      cat = cat₂ → dist = dist₂ → w = w₂ → speed = speed₂ → seed = seed₂ →
      choose_tip cat dist w speed seed = choose_tip cat₂ dist₂ w₂ speed₂ seed₂) := by
  constructor
  · intro item cat kg seed item₂ cat₂ kg₂ seed₂ h1 h2 h3 h4
    rw [h1, h2, h3, h4]
  · intro cat dist w speed seed cat₂ dist₂ w₂ speed₂ seed₂ h1 h2 h3 h4 h5
    rw [h1, h2, h3, h4, h5]

/-- Witness for C5 at concrete arguments. -/
theorem C5_witness :
    choose_feedback "AirPods" "Electronics (phone, laptop)" 1 42 =
      choose_feedback "AirPods" "Electronics (phone, laptop)" 1 42 ∧
    choose_tip "Packaged goods" "Local (same city)" none "Two-day" 42 =
      choose_tip "Packaged goods" "Local (same city)" none "Two-day" 42 :=
  ⟨C5_selectors_pure.1 _ _ _ _ _ _ _ _ rfl rfl rfl rfl,
   C5_selectors_pure.2 _ _ _ _ _ _ _ _ _ _ rfl rfl rfl rfl rfl⟩

/-- C7 counterexample: drawing the intensity line second and the suffix third
(the specification's asserted order) produces a different string from
`choose_feedback`, which draws the suffix second and the intensity line
third. -/
theorem C7_counterexample :
    choose_feedback "AirPods" "Electronics (phone, laptop)" 1 0 ≠
      choose_feedback_specOrder "AirPods" "Electronics (phone, laptop)" 1 0 := by
  have h : intensityOf 1 = "noticeable" := by
    rw [intensityOf, if_neg (by norm_num), if_pos (by norm_num)]
  simp only [choose_feedback, choose_feedback_specOrder, h]
  decide

/-- C7 amended: the draw order of `choose_feedback` is template (draw 0),
sarcastic suffix (draw 1), intensity line (draw 2); `choose_tip` draws the
template (draw 0) and then the punchline (draw 1), the extra clauses
consuming no draws. -/
theorem C7_amended_draw_order (item_name category : String) (kg : ℚ) (seed : Nat)
    (distance : String) (w : Option ℚ) (speed : String) :
    choose_feedback item_name category kg seed =
      subst "{item}" item_name (pickAt seed 0 FEEDBACK_TEMPLATES) ++ " " ++
        pickAt seed 2 (intensity_map (intensityOf kg)) ++ " " ++
        pickAt seed 1 SARCASTIC_SUFFIXES ∧
    choose_tip category distance w speed seed =
      (if (tipExtras distance w speed).isEmpty then
        subst "{category}" category (pickAt (seed + 7) 0 (tipCandidates category))
      else
        subst "{category}" category (pickAt (seed + 7) 0 (tipCandidates category)) ++ " " ++
          String.intercalate " " ((tipExtras distance w speed).take 2)) ++ " " ++
      pickAt (seed + 7) 1 PUNCHLINES := by
  constructor
  · simp only [choose_feedback]
    rw [choice_draw0, choice_draw1, choice_draw2]
  · simp only [choose_tip]
    rw [choice_draw0, choice_draw1]

/-- C2: on valid inputs the estimate is non-negative and monotonically
non-decreasing in price, quantity, and weight (including the step from an
absent weight to a present non-negative one), other arguments held fixed. -/
theorem C2_estimate_monotone :
    (∀ (category : String) (price : ℝ) (quantity : ℤ) (distance : String)
        (weight : Option ℝ) (speed : String),
      0 ≤ estimate_emission category price quantity distance weight speed) ∧
    (∀ (category : String) (p₁ p₂ : ℝ) (q : ℤ) (distance : String) (weight : Option ℝ)
        (speed : String), 0 ≤ p₁ → p₁ ≤ p₂ → 0 < q →
      estimate_emission category p₁ q distance weight speed ≤
        estimate_emission category p₂ q distance weight speed) ∧
    (∀ (category : String) (p : ℝ) (q₁ q₂ : ℤ) (distance : String) (weight : Option ℝ)
        (speed : String), 0 ≤ p → 0 < q₁ → q₁ ≤ q₂ →
      estimate_emission category p q₁ distance weight speed ≤
        estimate_emission category p q₂ distance weight speed) ∧
    (∀ (category : String) (p : ℝ) (q : ℤ) (distance : String) (speed : String) (w₂ : ℝ),
      0 ≤ w₂ →
      estimate_emission category p q distance none speed ≤
        estimate_emission category p q distance (some w₂) speed) ∧
    (∀ (category : String) (p : ℝ) (q : ℤ) (distance : String) (speed : String) (w₁ w₂ : ℝ),
      0 ≤ w₁ → w₁ ≤ w₂ →
      estimate_emission category p q distance (some w₁) speed ≤
        estimate_emission category p q distance (some w₂) speed) := by
  refine ⟨?_, ?_, ?_, ?_, ?_⟩
  · intro category price quantity distance weight speed
    rw [estimate_emission_closed_form]
    exact le_max_left 0 _
  · intro category p₁ p₂ q distance weight speed hp1 hp hq
    rw [estimate_emission_closed_form, estimate_emission_closed_form]
    have hF : (0:ℝ) < (factorOf category : ℝ) := by exact_mod_cast factorOf_pos category
    have hQ : (0:ℝ) < (q : ℝ) := by exact_mod_cast hq
    have hD : (0:ℝ) < (distMultOf distance : ℝ) := by exact_mod_cast distMultOf_pos distance
    have hS : (0:ℝ) < (speedMultOf speed : ℝ) := by exact_mod_cast speedMultOf_pos speed
    refine max_le_max le_rfl (add_le_add_right ?_ _)
    exact mul_le_mul_of_nonneg_right (mul_le_mul_of_nonneg_right (mul_le_mul_of_nonneg_right
      (mul_le_mul_of_nonneg_right hp hF.le) hQ.le) hD.le) hS.le
  · intro category p q₁ q₂ distance weight speed hp hq1 hq
    rw [estimate_emission_closed_form, estimate_emission_closed_form]
    have hF : (0:ℝ) ≤ (factorOf category : ℝ) := by exact_mod_cast (factorOf_pos category).le
    have hD : (0:ℝ) ≤ (distMultOf distance : ℝ) := by
      exact_mod_cast (distMultOf_pos distance).le
    have hS : (0:ℝ) ≤ (speedMultOf speed : ℝ) := by exact_mod_cast (speedMultOf_pos speed).le
    have hq12 : (q₁ : ℝ) ≤ (q₂ : ℝ) := by exact_mod_cast hq
    refine max_le_max le_rfl (add_le_add_right ?_ _)
    refine mul_le_mul_of_nonneg_right (mul_le_mul_of_nonneg_right ?_ hD) hS
    exact mul_le_mul_of_nonneg_left hq12 (mul_nonneg hp hF)
  · intro category p q distance speed w₂ hw
    rw [estimate_emission_closed_form, estimate_emission_closed_form]
    exact max_le_max le_rfl (add_le_add_left (weightTermOf_nonneg (some w₂)) _)
  · intro category p q distance speed w₁ w₂ h0 h12
    rw [estimate_emission_closed_form, estimate_emission_closed_form]
    refine max_le_max le_rfl (add_le_add_left ?_ _)
    simp only [weightTermOf]
    by_cases h1 : 0 < w₁
    · rw [if_pos h1, if_pos (lt_of_lt_of_le h1 h12)]
      exact mul_le_mul_of_nonneg_right (Real.sqrt_le_sqrt h12) (by norm_num)
    · rw [if_neg h1]
      by_cases h2 : 0 < w₂
      · rw [if_pos h2]
        positivity
      · rw [if_neg h2]

/-- Witness for C2 at concrete inputs. -/
theorem C2_witness :
    (0:ℝ) ≤ 1 ∧ (1:ℝ) ≤ 2 ∧ (0:ℤ) < 1 ∧ (0:ℝ) ≤ 4 ∧
    0 ≤ estimate_emission "Books / Media" 1 1 "Local (same city)" none "Two-day" ∧
    estimate_emission "Books / Media" 1 1 "Local (same city)" none "Two-day" ≤
      estimate_emission "Books / Media" 2 1 "Local (same city)" none "Two-day" ∧
    estimate_emission "Books / Media" 1 1 "Local (same city)" none "Two-day" ≤
      estimate_emission "Books / Media" 1 1 "Local (same city)" (some 4) "Two-day" :=
  ⟨zero_le_one, one_le_two, Int.one_pos, by norm_num,
   C2_estimate_monotone.1 "Books / Media" 1 1 "Local (same city)" none "Two-day",
   C2_estimate_monotone.2.1 "Books / Media" 1 2 1 "Local (same city)" none "Two-day"
     zero_le_one one_le_two Int.one_pos,
   C2_estimate_monotone.2.2.2.1 "Books / Media" 1 1 "Local (same city)" "Two-day" 4
     (by norm_num)⟩

/-- C4: the intensity classification has exactly the four ordered bands with
thresholds 0.5, 5 and 50, and the six boundary values fall as stated. -/
theorem C4_intensity_bands :
    intensityOf 0.4999 = "mild" ∧ intensityOf 0.5 = "noticeable" ∧
    intensityOf 4.9999 = "noticeable" ∧ intensityOf 5 = "strong" ∧
    intensityOf 49.9999 = "strong" ∧ intensityOf 50 = "epic" ∧
    ∀ kg : ℚ,
      (intensityOf kg = "mild" ↔ kg < 0.5) ∧
      (intensityOf kg = "noticeable" ↔ 0.5 ≤ kg ∧ kg < 5) ∧
      (intensityOf kg = "strong" ↔ 5 ≤ kg ∧ kg < 50) ∧
      (intensityOf kg = "epic" ↔ 50 ≤ kg) := by
  have key : ∀ kg : ℚ,
      (intensityOf kg = "mild" ↔ kg < 0.5) ∧
      (intensityOf kg = "noticeable" ↔ 0.5 ≤ kg ∧ kg < 5) ∧
      (intensityOf kg = "strong" ↔ 5 ≤ kg ∧ kg < 50) ∧
      (intensityOf kg = "epic" ↔ 50 ≤ kg) := by
    intro kg
    rw [intensityOf]
    split_ifs with h1 h2 h3
    · exact ⟨iff_of_true rfl h1,
        iff_of_false (by decide) (fun hc => absurd h1 (not_lt.mpr hc.1)),
        iff_of_false (by decide) (fun hc => by linarith [hc.1]),
        iff_of_false (by decide) (fun hc => by linarith)⟩
    · exact ⟨iff_of_false (by decide) h1,
        iff_of_true rfl ⟨le_of_not_lt h1, h2⟩,
        iff_of_false (by decide) (fun hc => absurd h2 (not_lt.mpr hc.1)),
        iff_of_false (by decide) (fun hc => by linarith)⟩
    · exact ⟨iff_of_false (by decide) h1,
        iff_of_false (by decide) (fun hc => absurd hc.2 h2),
        iff_of_true rfl ⟨le_of_not_lt h2, h3⟩,
        iff_of_false (by decide) (fun hc => absurd h3 (not_lt.mpr hc))⟩
    · exact ⟨iff_of_false (by decide) h1,
        iff_of_false (by decide) (fun hc => absurd hc.2 h2),
        iff_of_false (by decide) (fun hc => absurd hc.2 h3),
        iff_of_true rfl (le_of_not_lt h3)⟩
  refine ⟨(key _).1.mpr (by norm_num),
    (key _).2.1.mpr ⟨le_refl _, by norm_num⟩,
    (key _).2.1.mpr ⟨by norm_num, by norm_num⟩,
    (key _).2.2.1.mpr ⟨le_refl _, by norm_num⟩,
    (key _).2.2.1.mpr ⟨by norm_num, by norm_num⟩,
    (key _).2.2.2.mpr (le_refl _),
    key⟩

/-- Witness for C4 at the boundary value one half. -/
theorem C4_witness :
    (0.5:ℚ) ≤ 0.5 ∧ (0.5:ℚ) < 5 ∧ intensityOf 0.5 = "noticeable" :=
  ⟨le_refl _, by norm_num,
   ((C4_intensity_bands.2.2.2.2.2.2 0.5).2.1).mpr ⟨le_refl _, by norm_num⟩⟩

/-- C6: `choose_tip` builds the extra clauses by the three conditions in the
fixed priority order (Express shipping, weight present and above 10,
International distance), each appended only when its condition holds, and
appends at most the first two qualifying clauses. -/
theorem C6_tip_extra_clauses (distance : String) (weight_kg : Option ℚ)
    (shipping_speed : String) :
    ((tipExtras distance weight_kg shipping_speed).take 2).length ≤ 2 ∧
    ("Skip express shipping next time — it\x27s pricey for the planet." ∈
        tipExtras distance weight_kg shipping_speed ↔
      shipping_speed = "Express / Overnight") ∧
    ("For heavy items, prefer consolidated shipping or local pickup." ∈
        tipExtras distance weight_kg shipping_speed ↔
      pyTruthyAndGt weight_kg 10 = true) ∧
    ("Check if a local equivalent exists to avoid long-haul transport." ∈
        tipExtras distance weight_kg shipping_speed ↔
      distance = "International (overseas)") ∧
    (shipping_speed = "Express / Overnight" → pyTruthyAndGt weight_kg 10 = true →
      (tipExtras distance weight_kg shipping_speed).take 2 =
        ["Skip express shipping next time — it\x27s pricey for the planet.",
         "For heavy items, prefer consolidated shipping or local pickup."]) ∧
    (shipping_speed = "Express / Overnight" → ¬ pyTruthyAndGt weight_kg 10 = true →
      distance = "International (overseas)" →
      (tipExtras distance weight_kg shipping_speed).take 2 =
        ["Skip express shipping next time — it\x27s pricey for the planet.",
         "Check if a local equivalent exists to avoid long-haul transport."]) := by
  unfold tipExtras
  split_ifs with h1 h2 h3 <;> simp_all

/-- Witness for C6 with all three conditions holding. -/
theorem C6_witness :
    pyTruthyAndGt (some 11) 10 = true ∧
    (tipExtras "International (overseas)" (some 11) "Express / Overnight").take 2 =
      ["Skip express shipping next time — it\x27s pricey for the planet.",
       "For heavy items, prefer consolidated shipping or local pickup."] := by
  have hw : pyTruthyAndGt (some 11) 10 = true := by norm_num [pyTruthyAndGt]
  exact ⟨hw,
    (C6_tip_extra_clauses "International (overseas)" (some 11) "Express / Overnight").2.2.2.2.1
      rfl hw⟩

/-- C8 counterexample: the specification-mandated boundary validation would
reject price -5, but `estimate_emission` accepts it and computes 0 (the
clamp); it likewise accepts quantity 0 and returns 0. -/
theorem C8_counterexample :
    estimate_spec_validating "Misc / Other" (-5) 1 "Local (same city)" none
        "Standard (5–8 days)" = Except.error "validation error" ∧
    estimate_emission "Misc / Other" (-5) 1 "Local (same city)" none "Standard (5–8 days)" = 0 ∧
    estimate_emission "Misc / Other" 10 0 "Local (same city)" none "Standard (5–8 days)" = 0 := by
  have hf : factorOf "Misc / Other" = 0.16 := by
    rw [factorOf, lookup_misc_eq, Option.getD_some]
  have hd : distMultOf "Local (same city)" = 1.00 := by
    rw [distMultOf, lookup_local_eq, Option.getD_some]
  have hs : speedMultOf "Standard (5–8 days)" = 1 := by
    rw [speedMultOf, if_neg (by decide), if_neg (by decide)]
  have hw : weightTermOf none = 0 := rfl
  refine ⟨?_, ?_, ?_⟩
  · rw [estimate_spec_validating, if_pos (Or.inl (by norm_num))]
  · rw [estimate_emission_closed_form, hf, hd, hs, hw]
    push_cast
    norm_num
  · rw [estimate_emission_closed_form, hf, hd, hs, hw]
    push_cast
    norm_num

/-- C8 amended: `estimate_emission` performs no boundary validation: a
non-positive price flows through and is clamped to 0, a zero quantity yields
exactly the weight term, and an unknown category resolves to the `Misc /
Other` fallback factor, all without error. -/
theorem C8_amended_no_validation :
    (∀ (category distance speed : String) (price : ℝ) (q : ℤ),
      price ≤ 0 → 0 ≤ q →
      estimate_emission category price q distance none speed = 0) ∧
    (∀ (category distance speed : String) (price : ℝ) (w : Option ℝ),
      estimate_emission category price 0 distance w speed = weightTermOf w) ∧
    (∀ c : String, List.lookup c EMISSION_FACTORS = none → factorOf c = 0.16) := by
  refine ⟨?_, ?_, ?_⟩
  · intro category distance speed price q hp hq
    rw [estimate_emission_closed_form]
    have hFr : (0:ℝ) ≤ (factorOf category : ℝ) := by exact_mod_cast (factorOf_pos category).le
    have hDr : (0:ℝ) ≤ (distMultOf distance : ℝ) := by
      exact_mod_cast (distMultOf_pos distance).le
    have hSr : (0:ℝ) ≤ (speedMultOf speed : ℝ) := by exact_mod_cast (speedMultOf_pos speed).le
    have hqr : (0:ℝ) ≤ (q:ℝ) := by exact_mod_cast hq
    have hwn : weightTermOf none = 0 := rfl
    rw [hwn, add_zero]
    refine max_eq_left ?_
    have h1 : price * (factorOf category : ℝ) ≤ 0 := by
      have := mul_le_mul_of_nonneg_right hp hFr
      rwa [zero_mul] at this
    have h2 : price * (factorOf category : ℝ) * (q:ℝ) ≤ 0 := by
      have := mul_le_mul_of_nonneg_right h1 hqr
      rwa [zero_mul] at this
    have h3 : price * (factorOf category : ℝ) * (q:ℝ) * (distMultOf distance : ℝ) ≤ 0 := by
      have := mul_le_mul_of_nonneg_right h2 hDr
      rwa [zero_mul] at this
    have := mul_le_mul_of_nonneg_right h3 hSr
    rwa [zero_mul] at this
  · intro category distance speed price w
    rw [estimate_emission_closed_form]
    have h0 : price * (factorOf category : ℝ) * ((0:ℤ):ℝ) * (distMultOf distance : ℝ) *
        (speedMultOf speed : ℝ) = 0 := by push_cast; ring
    rw [h0, zero_add]
    exact max_eq_right (weightTermOf_nonneg w)
  · intro c h
    rw [factorOf, h, Option.getD_none, lookup_misc_eq, Option.getD_some]

/-- Witness for C8 amended at concrete inputs, including an unknown category. -/
theorem C8_witness :
    (-5:ℝ) ≤ 0 ∧ (0:ℤ) ≤ 1 ∧ List.lookup "Uncategorized" EMISSION_FACTORS = none ∧
    estimate_emission "Misc / Other" (-5) 1 "Local (same city)" none "Two-day" = 0 ∧
    factorOf "Uncategorized" = 0.16 :=
  ⟨by norm_num, by decide, rfl,
   C8_amended_no_validation.1 "Misc / Other" "Local (same city)" "Two-day" (-5) 1
     (by norm_num) (by decide),
   C8_amended_no_validation.2.2 "Uncategorized" rfl⟩

/-- The formatter, once its rounding step is evaluated. -/
theorem formatFixed_of_round (q : ℚ) (d : Nat) (n : ℤ)
    (h : roundHalfEven (q * (10 : ℚ) ^ d) = n) :
    formatFixed q d = (if n < 0 then "-" else "") ++ fmtNat n.natAbs d := by
  simp only [formatFixed, h]

/-- C9: `format_kg` renders sub-kilogram values in grams with zero decimals
and values of a kilogram or more in kilograms with two decimals, and
`format_tonnes` renders kg/1000 with three decimals; in particular
`format_kg 0.5 = "500 g CO2e"`, `format_kg 1 = "1.00 kg CO2e"` and
`format_tonnes 1000 = "1.000 t CO2e"`. -/
theorem C9_formatters :
    format_kg 0.5 = "500 g CO2e" ∧
    format_kg 1 = "1.00 kg CO2e" ∧
    format_tonnes 1000 = "1.000 t CO2e" ∧
    (∀ kg : ℚ, kg < 1 → format_kg kg = formatFixed (kg * 1000) 0 ++ " g CO2e") ∧
    (∀ kg : ℚ, 1 ≤ kg → format_kg kg = formatFixed kg 2 ++ " kg CO2e") ∧
    (∀ kg : ℚ, format_tonnes kg = formatFixed (kg / 1000) 3 ++ " t CO2e") := by
  have r1 : roundHalfEven ((0.5 : ℚ) * 1000 * (10 : ℚ) ^ 0) = 500 := by
    simp only [roundHalfEven]
    norm_num
  have f1 : formatFixed ((0.5 : ℚ) * 1000) 0 = "500" := by
    rw [formatFixed_of_round _ _ 500 r1]
    decide
  have r2 : roundHalfEven ((1 : ℚ) * (10 : ℚ) ^ 2) = 100 := by
    simp only [roundHalfEven]
    norm_num
  have f2 : formatFixed (1 : ℚ) 2 = "1.00" := by
    rw [formatFixed_of_round _ _ 100 r2]
    decide
  have r3 : roundHalfEven ((1000 : ℚ) * KG_TO_TONNES * (10 : ℚ) ^ 3) = 1000 := by
    simp only [roundHalfEven, KG_TO_TONNES]
    norm_num
  have f3 : formatFixed ((1000 : ℚ) * KG_TO_TONNES) 3 = "1.000" := by
    rw [formatFixed_of_round _ _ 1000 r3]
    decide
  refine ⟨?_, ?_, ?_, ?_, ?_, ?_⟩
  · rw [format_kg, if_pos (by norm_num : (0.5 : ℚ) < 1), f1]
    decide
  · rw [format_kg, if_neg (by norm_num : ¬ ((1 : ℚ) < 1)), f2]
    decide
  · simp only [format_tonnes]
    rw [f3]
    decide
  · intro kg h
    rw [format_kg, if_pos h]
  · intro kg h
    rw [format_kg, if_neg (not_lt.mpr h)]
  · intro kg
    simp only [format_tonnes, KG_TO_TONNES]
    rw [mul_one_div]

/-- Witness for C9's general gram rule at one quarter kilogram. -/
theorem C9_witness :
    (1/4 : ℚ) < 1 ∧ format_kg (1/4) = formatFixed ((1/4 : ℚ) * 1000) 0 ++ " g CO2e" :=
  ⟨by norm_num, C9_formatters.2.2.2.1 (1/4) (by norm_num)⟩

/-- C10: a distance level outside the three table keys silently gets
multiplier 1.0, so the estimate equals the Local estimate for all other
arguments. -/
theorem C10_unknown_distance (d : String)
    (h : d ∉ ["Local (same city)", "National (within country)", "International (overseas)"]) :
    ∀ (category : String) (price : ℝ) (q : ℤ) (w : Option ℝ) (s : String),
      estimate_emission category price q d w s =
        estimate_emission category price q "Local (same city)" w s := by
  intro category price q w s
  have h1 : d ≠ "Local (same city)" := fun he => h (by rw [he]; simp)
  have h2 : d ≠ "National (within country)" := fun he => h (by rw [he]; simp)
  have h3 : d ≠ "International (overseas)" := fun he => h (by rw [he]; simp)
  have b1 : (d == "Local (same city)") = false := beq_eq_false_iff_ne.mpr h1
  have b2 : (d == "National (within country)") = false := beq_eq_false_iff_ne.mpr h2
  have b3 : (d == "International (overseas)") = false := beq_eq_false_iff_ne.mpr h3
  have hnone : List.lookup d DISTANCE_MULTIPLIERS = none := by
    simp [DISTANCE_MULTIPLIERS, List.lookup, b1, b2, b3]
  have hd : distMultOf d = 1 := by rw [distMultOf, hnone, Option.getD_none]
  have hl : distMultOf "Local (same city)" = 1.00 := by
    rw [distMultOf, lookup_local_eq, Option.getD_some]
  rw [estimate_emission_closed_form, estimate_emission_closed_form, hd, hl]
  norm_num

/-- Witness for C10 at the unknown distance string Mars. -/
theorem C10_witness :
    "Mars" ∉ ["Local (same city)", "National (within country)", "International (overseas)"] ∧
    estimate_emission "Books / Media" 3 2 "Mars" none "Two-day" =
      estimate_emission "Books / Media" 3 2 "Local (same city)" none "Two-day" :=
  ⟨by decide, C10_unknown_distance "Mars" (by decide) "Books / Media" 3 2 none "Two-day"⟩
